import Mathlib

/-!
Verification of the SCPI command/query channel implemented by
`SocketConnection` (python_scpi_command_example.py and
python_basic_configuration_example.py, whose class is identical) and
`VISAConnection` (python_scpi_command_by_visa_example.py).

The embedding models text as `List Char` (one entry per byte; SCPI traffic
is ASCII/UTF-8 text).  The behaviour of the underlying transport (the OS
socket / the VISA instrument handle) is a `Script`: for each successive
`sendall` and `recv` call it says whether the call succeeds, what data is
pending, or which exception it raises.  Each method of the connection class
is a pure function from the connection state and the script to a result
record holding: the Python return value, the sequence of transport calls
performed (`WireEv`), the console lines printed (`OutEv`), and the
post-state.  Every `try`/`except Exception` block of the source is mirrored
by total case analysis: a raised exception becomes the corresponding error
branch, never a propagated failure.
-/

namespace SCPI

/-- Python whitespace test used by `str.strip()` (the ASCII/Latin-1 part;
SCPI traffic contains no other characters). -/
def isSpace (c : Char) : Bool :=
  c = ' ' || c = '\t' || c = '\n' || c = '\r' ||
  c = '\x0b' || c = '\x0c' || c = '\x1c' || c = '\x1d' ||
  c = '\x1e' || c = '\x1f' || c = '\x85'

/-- `str.lstrip()`: drop leading whitespace. -/
def pyLStrip (l : List Char) : List Char := l.dropWhile isSpace

/-- `str.rstrip()`: drop trailing whitespace. -/
def pyRStrip (l : List Char) : List Char := (l.reverse.dropWhile isSpace).reverse

/-- `str.strip()`: drop whitespace at both ends. -/
def pyStrip (l : List Char) : List Char := pyLStrip (pyRStrip l)

/-- `command.endswith('\n')`. -/
def endsWithNl (l : List Char) : Bool := l.getLast? = some '\n'

/-- The newline normalisation performed by `send_command` and `query`:
`if not command.endswith('\n'): command += '\n'`. -/
def pyTerminate (l : List Char) : List Char :=
  if endsWithNl l then l else l ++ ['\n']

/-- Number of newline terminators contained in a byte sequence. -/
def countNl (l : List Char) : Nat := l.count '\n'

/-- The exceptions that can be raised inside the `try` blocks of the source
(all are caught by `except Exception as e`).  `attrNone` is the
`AttributeError` raised by calling a method on `self.socket`/`self.instrument`
while it is still `None`; `osNotConn` is the `OSError` raised by using a
socket object whose TCP connect never succeeded; `badFd` is the error raised
by using a closed handle; `timeoutExc` is `socket.timeout` on `recv`;
`decodeError` is `UnicodeDecodeError` from `.decode()`. -/
inductive PyExc
  | attrNone
  | osNotConn
  | badFd
  | ioError
  | timeoutExc
  | decodeError
  deriving DecidableEq

/-- Outcome of one `sendall` call on a connected socket. -/
inductive SendR
  | ok
  | fail (e : PyExc)
  deriving DecidableEq

/-- Outcome of one `recv` call on a connected socket: `data payload` means
`payload` bytes are pending and decodable (`recv n` delivers up to `n` of
them); `garbled` means the delivered bytes fail `.decode()`; `fail e` means
`recv` raises `e`. -/
inductive RecvR
  | data (payload : List Char)
  | garbled
  | fail (e : PyExc)
  deriving DecidableEq

/-- The transport's scripted behaviour: the outcome of the n-th `sendall`
call and of the n-th `recv` call. -/
structure Script where
  sendO : Nat → SendR
  recvO : Nat → RecvR

/-- A transport call observed on the wire: a `sendall` with its payload, or
a `recv` with its buffer bound. -/
inductive WireEv
  | writeEv (data : List Char)
  | readEv (maxSize : Nat)
  deriving DecidableEq

/-- A console line printed by the connection class, with its dynamic parts. -/
inductive OutEv
  | connectedMsg (ip : List Char) (port : Nat)
  | connErrMsg (e : PyExc)
  | sentMsg (cmd : List Char)
  | sendErrMsg (e : PyExc)
  | queryMsg (cmd : List Char)
  | respMsg (r : List Char)
  | queryErrMsg (e : PyExc)
  | disconnMsg (ip : List Char)
  deriving DecidableEq

/-- State of the `self.socket` attribute: `notConn` is a socket object whose
TCP connect raised (the object exists, no link is up); `conn s r` is a
connected socket about to perform its `s`-th send and `r`-th receive of the
script; `closedS` is a socket object after `close()`. -/
inductive SockSt
  | notConn
  | conn (sIdx rIdx : Nat)
  | closedS
  deriving DecidableEq

/-- The `SocketConnection` instance state: constructor fields plus
`self.socket` (`none` exactly as in `__init__`). -/
structure SocketConnection where
  ip : List Char
  port : Nat
  timeout : Nat
  sock : Option SockSt
  deriving DecidableEq

/-- `SocketConnection.__init__`: stores the target and sets `self.socket = None`. -/
def SocketConnection.init (ip : List Char) (port timeout : Nat) : SocketConnection :=
  ⟨ip, port, timeout, none⟩

/-- Result of one method call: Python return value, transport calls made,
console lines printed, and the connection state afterwards. -/
structure MRes (α : Type) where
  ret : α
  wire : List WireEv
  out : List OutEv
  post : SocketConnection
  deriving DecidableEq

/-- `recv(65535)`: the fixed response-buffer bound of `query`. -/
def BUFSIZE : Nat := 65535

/-- How `connect` turns out: `success` means socket creation, `settimeout`
and the TCP connect all succeed; `sockFail e` means `socket.socket(...)`
itself raises (so `self.socket` keeps its old value); `connFail e` means the
socket object is created but `settimeout`/`connect` raises `e`. -/
inductive ConnOutcome
  | success
  | sockFail (e : PyExc)
  | connFail (e : PyExc)

/-- `SocketConnection.connect`: creates a socket, sets the timeout and
connects; prints a success line and returns `True`, or prints the error and
returns `False`.  On `connFail` the freshly created (unconnected) socket
object remains assigned to `self.socket`. -/
def connect (c : SocketConnection) (o : ConnOutcome) : MRes Bool :=
  match o with
  | ConnOutcome.success =>
      ⟨true, [], [OutEv.connectedMsg c.ip c.port], {c with sock := some (SockSt.conn 0 0)}⟩
  | ConnOutcome.sockFail e =>
      ⟨false, [], [OutEv.connErrMsg e], c⟩
  | ConnOutcome.connFail e =>
      ⟨false, [], [OutEv.connErrMsg e], {c with sock := some SockSt.notConn}⟩

/-- `SocketConnection.send_command`: terminates the command with a single
`\n` if absent, then `self.socket.sendall(command.encode())`; prints the
sent line on success, prints the exception otherwise; always returns `None`.
When `self.socket` is `None`, unconnected or closed, the method call raises
before any transport traffic, so no `WireEv` occurs. -/
def send_command (scr : Script) (c : SocketConnection) (command : List Char) : MRes Unit :=
  let cmd := pyTerminate command
  match c.sock with
  | none => ⟨(), [], [OutEv.sendErrMsg PyExc.attrNone], c⟩
  | some SockSt.notConn => ⟨(), [], [OutEv.sendErrMsg PyExc.osNotConn], c⟩
  | some SockSt.closedS => ⟨(), [], [OutEv.sendErrMsg PyExc.badFd], c⟩
  | some (SockSt.conn s r) =>
      match scr.sendO s with
      | SendR.ok =>
          ⟨(), [WireEv.writeEv cmd], [OutEv.sentMsg (pyStrip cmd)],
            {c with sock := some (SockSt.conn (s + 1) r)}⟩
      | SendR.fail e =>
          ⟨(), [WireEv.writeEv cmd], [OutEv.sendErrMsg e],
            {c with sock := some (SockSt.conn (s + 1) r)}⟩

/-- `SocketConnection.query`: terminates the command, `sendall`s it, prints
the query line, then performs one `recv(65535)`, decodes and strips the
result and returns it; on any exception prints the error and returns
`None`. -/
def query (scr : Script) (c : SocketConnection) (command : List Char) :
    MRes (Option (List Char)) :=
  let cmd := pyTerminate command
  match c.sock with
  | none => ⟨none, [], [OutEv.queryErrMsg PyExc.attrNone], c⟩
  | some SockSt.notConn => ⟨none, [], [OutEv.queryErrMsg PyExc.osNotConn], c⟩
  | some SockSt.closedS => ⟨none, [], [OutEv.queryErrMsg PyExc.badFd], c⟩
  | some (SockSt.conn s r) =>
      match scr.sendO s with
      | SendR.fail e =>
          ⟨none, [WireEv.writeEv cmd], [OutEv.queryErrMsg e],
            {c with sock := some (SockSt.conn (s + 1) r)}⟩
      | SendR.ok =>
          let c1 : SocketConnection := {c with sock := some (SockSt.conn (s + 1) (r + 1))}
          match scr.recvO r with
          | RecvR.data payload =>
              let response := pyStrip (payload.take BUFSIZE)
              ⟨some response, [WireEv.writeEv cmd, WireEv.readEv BUFSIZE],
                [OutEv.queryMsg (pyStrip cmd), OutEv.respMsg response], c1⟩
          | RecvR.garbled =>
              ⟨none, [WireEv.writeEv cmd, WireEv.readEv BUFSIZE],
                [OutEv.queryMsg (pyStrip cmd), OutEv.queryErrMsg PyExc.decodeError], c1⟩
          | RecvR.fail e =>
              ⟨none, [WireEv.writeEv cmd, WireEv.readEv BUFSIZE],
                [OutEv.queryMsg (pyStrip cmd), OutEv.queryErrMsg e], c1⟩

/-- `SocketConnection.disconnect`: `if self.socket: self.socket.close();
print(...)`.  A socket object — connected, unconnected or already closed —
is truthy, so it is closed (idempotently, `socket.close` never fails) and
the message printed; only the fresh `None` state is a no-op. -/
def disconnect (c : SocketConnection) : MRes Unit :=
  match c.sock with
  | none => ⟨(), [], [], c⟩
  | some _ => ⟨(), [], [OutEv.disconnMsg c.ip], {c with sock := some SockSt.closedS}⟩

/-- The channel holds no live transport: the spec's `Closed` (a fresh,
never-connected channel holds none either). -/
def ClosedPred (c : SocketConnection) : Prop :=
  c.sock = none ∨ c.sock = some SockSt.closedS

/-- Number of `recv` calls in a wire trace. -/
def countReads : List WireEv → Nat
  | [] => 0
  | WireEv.readEv _ :: t => countReads t + 1
  | WireEv.writeEv _ :: t => countReads t

/-- Number of `sendall` calls in a wire trace. -/
def countWrites : List WireEv → Nat
  | [] => 0
  | WireEv.writeEv _ :: t => countWrites t + 1
  | WireEv.readEv _ :: t => countWrites t

/-- Outcome of one `instrument.write` call. -/
inductive VisaWR
  | ok
  | fail (e : PyExc)
  deriving DecidableEq

/-- Outcome of one `instrument.query` call (pyvisa performs the write and
the read internally and returns the raw response text, or raises). -/
inductive VisaQR
  | ok (resp : List Char)
  | fail (e : PyExc)
  deriving DecidableEq

/-- Scripted behaviour of the VISA instrument handle. -/
structure VisaScript where
  writeO : Nat → VisaWR
  queryO : Nat → VisaQR

/-- State of `self.instrument`: a live handle about to perform its `w`-th
write and `q`-th query, or a closed handle. -/
inductive InstSt
  | live (wIdx qIdx : Nat)
  | closedI
  deriving DecidableEq

/-- The `VISAConnection` instance state: resource string, timeout,
`self.instrument` and whether `self.rm` has been assigned a
`ResourceManager` (both are `None` in `__init__`). -/
structure VISAConnection where
  resource_string : List Char
  timeout : Nat
  instrument : Option InstSt
  hasRm : Bool
  deriving DecidableEq

/-- `VISAConnection.__init__`. -/
def VISAConnection.init (rs : List Char) (timeout : Nat) : VISAConnection :=
  ⟨rs, timeout, none, false⟩

/-- Console line printed by `VISAConnection`, with its dynamic parts. -/
inductive VOutEv
  | connectedMsg (rs : List Char)
  | connErrMsg (e : PyExc)
  | sentMsg (cmd : List Char)
  | sendErrMsg (e : PyExc)
  | queryMsg (cmd : List Char)
  | respMsg (r : List Char)
  | queryErrMsg (e : PyExc)
  | disconnMsg (rs : List Char)
  deriving DecidableEq

/-- Result of one `VISAConnection` method call. -/
structure VRes (α : Type) where
  ret : α
  out : List VOutEv
  post : VISAConnection
  deriving DecidableEq

/-- How `VISAConnection.connect` turns out: `rmFail` means
`pyvisa.ResourceManager()` raises (nothing assigned); `openFail` means the
manager is created but `open_resource` raises, so `self.rm` is set while
`self.instrument` keeps its old value. -/
inductive VConnOutcome
  | success
  | rmFail (e : PyExc)
  | openFail (e : PyExc)

/-- `VISAConnection.connect`: creates the resource manager, opens the
resource and sets its timeout; prints and returns `True` on success,
prints the error and returns `False` otherwise. -/
def visa_connect (c : VISAConnection) (o : VConnOutcome) : VRes Bool :=
  match o with
  | VConnOutcome.success =>
      ⟨true, [VOutEv.connectedMsg c.resource_string],
        {c with hasRm := true, instrument := some (InstSt.live 0 0)}⟩
  | VConnOutcome.rmFail e =>
      ⟨false, [VOutEv.connErrMsg e], c⟩
  | VConnOutcome.openFail e =>
      ⟨false, [VOutEv.connErrMsg e], {c with hasRm := true}⟩

/-- `VISAConnection.send_command`: `self.instrument.write(command)` — no
newline handling in this class (the library owns termination); prints the
sent line on success, the exception otherwise; always returns `None`. -/
def visa_send (vs : VisaScript) (c : VISAConnection) (command : List Char) : VRes Unit :=
  match c.instrument with
  | none => ⟨(), [VOutEv.sendErrMsg PyExc.attrNone], c⟩
  | some InstSt.closedI => ⟨(), [VOutEv.sendErrMsg PyExc.badFd], c⟩
  | some (InstSt.live w q) =>
      match vs.writeO w with
      | VisaWR.ok =>
          ⟨(), [VOutEv.sentMsg (pyStrip command)],
            {c with instrument := some (InstSt.live (w + 1) q)}⟩
      | VisaWR.fail e =>
          ⟨(), [VOutEv.sendErrMsg e],
            {c with instrument := some (InstSt.live (w + 1) q)}⟩

/-- `VISAConnection.query`: `self.instrument.query(command).strip()`, then
prints the query line and the response and returns it; on any exception
prints the error and returns `None`. -/
def visa_query (vs : VisaScript) (c : VISAConnection) (command : List Char) :
    VRes (Option (List Char)) :=
  match c.instrument with
  | none => ⟨none, [VOutEv.queryErrMsg PyExc.attrNone], c⟩
  | some InstSt.closedI => ⟨none, [VOutEv.queryErrMsg PyExc.badFd], c⟩
  | some (InstSt.live w q) =>
      match vs.queryO q with
      | VisaQR.ok respRaw =>
          let response := pyStrip respRaw
          ⟨some response, [VOutEv.queryMsg (pyStrip command), VOutEv.respMsg response],
            {c with instrument := some (InstSt.live w (q + 1))}⟩
      | VisaQR.fail e =>
          ⟨none, [VOutEv.queryErrMsg e],
            {c with instrument := some (InstSt.live w (q + 1))}⟩

/-- `VISAConnection.disconnect`: closes the instrument (printing) when the
attribute is set, then closes the resource manager when set (no print, no
attribute cleared; both closes are idempotent and never fail). -/
def visa_disconnect (c : VISAConnection) : VRes Unit :=
  match c.instrument with
  | none => ⟨(), [], c⟩
  | some _ => ⟨(), [VOutEv.disconnMsg c.resource_string], {c with instrument := some InstSt.closedI}⟩

/-- The VISA channel holds no live instrument handle. -/
def VisaClosedPred (c : VISAConnection) : Prop :=
  c.instrument = none ∨ c.instrument = some InstSt.closedI

/-! Concrete fixtures used by witnesses and counterexamples. -/

/-- A transport on which every send succeeds and every receive delivers
the bytes of the decodable reply `1` followed by the terminator. -/
def scrOk : Script := ⟨fun _ => SendR.ok, fun _ => RecvR.data ['1', '\n']⟩

/-- A transport on which every `sendall` raises an `OSError`. -/
def scrSendFail : Script := ⟨fun _ => SendR.fail PyExc.ioError, fun _ => RecvR.data ['1', '\n']⟩

/-- A transport on which sends succeed and every `recv` times out. -/
def scrTimeout : Script := ⟨fun _ => SendR.ok, fun _ => RecvR.fail PyExc.timeoutExc⟩

/-- A transport on which sends succeed and every `recv` raises a generic
`OSError`. -/
def scrReadFail : Script := ⟨fun _ => SendR.ok, fun _ => RecvR.fail PyExc.ioError⟩

/-- A transport on which sends succeed and the received bytes fail to
decode. -/
def scrGarbled : Script := ⟨fun _ => SendR.ok, fun _ => RecvR.garbled⟩

/-- A connected `SocketConnection` at the start of its script. -/
def connAt0 : SocketConnection := ⟨[], 5025, 5, some (SockSt.conn 0 0)⟩

/-- A freshly constructed, never-connected `SocketConnection`. -/
def freshConn : SocketConnection := SocketConnection.init [] 5025 5

/-- A transport whose pending response is one byte longer than the `recv`
buffer bound. -/
def scrLong : Script :=
  ⟨fun _ => SendR.ok, fun _ => RecvR.data (List.replicate (BUFSIZE + 1) 'a')⟩

/-- A VISA instrument that answers every query with the reply `1` followed
by the terminator. -/
def vscrEcho : VisaScript := ⟨fun _ => VisaWR.ok, fun _ => VisaQR.ok ['1', '\n']⟩

/-- A connected `VISAConnection` at the start of its script. -/
def visaAt0 : VISAConnection := ⟨[], 5000, some (InstSt.live 0 0), true⟩

/-! ### Helper lemmas about the Python text primitives -/

theorem isSpace_nl : isSpace '\n' = true := by decide

theorem pyRStrip_append_nl (v : List Char) : pyRStrip (v ++ ['\n']) = pyRStrip v := by
  unfold pyRStrip
  rw [List.reverse_append]
  simp [List.dropWhile_cons, isSpace_nl]

theorem pyStrip_append_nl (v : List Char) : pyStrip (v ++ ['\n']) = pyStrip v := by
  unfold pyStrip
  rw [pyRStrip_append_nl]

theorem countNl_append_nl (l : List Char) : countNl (l ++ ['\n']) = countNl l + 1 := by
  simp [countNl]

theorem endsWithNl_concat (b : List Char) : endsWithNl (b ++ ['\n']) = true := by
  simp [endsWithNl, List.getLast?_concat]

theorem endsWithNl_false_of_countNl_zero (l : List Char) (h : countNl l = 0) :
    endsWithNl l = false := by
  rcases hb : endsWithNl l with _ | _
  · rfl
  · exfalso
    have hlast : l.getLast? = some '\n' := by simpa [endsWithNl] using hb
    have hmem : '\n' ∈ l := List.mem_of_getLast?_eq_some hlast
    have : ('\n' : Char) ∉ l := List.count_eq_zero.mp h
    exact this hmem

theorem countNl_pyTerminate_single (command : List Char)
    (h : countNl command = 0 ∨ ∃ b, command = b ++ ['\n'] ∧ countNl b = 0) :
    countNl (pyTerminate command) = 1 ∧ endsWithNl (pyTerminate command) = true := by
  rcases h with h0 | ⟨b, rfl, hb⟩
  · have hend := endsWithNl_false_of_countNl_zero command h0
    simp [pyTerminate, hend, countNl_append_nl, h0, endsWithNl_concat]
  · simp [pyTerminate, endsWithNl_concat, countNl_append_nl, hb]

/-! ### Claim theorems -/

/-- Claim C2: on a freshly constructed, never-connected `SocketConnection`
(`self.socket` is `None`), every `send_command` and every `query` fails —
the `AttributeError` raised by the `None` socket is caught and reported as
the error diagnostic, `query` returns `None` — and no transport call at all
is performed; the connection state is unchanged. -/
theorem scpi_c2_not_connected_guard :
    ∀ (ip : List Char) (port t : Nat) (scr : Script) (cmd : List Char),
      (send_command scr (SocketConnection.init ip port t) cmd).wire = [] ∧
      (send_command scr (SocketConnection.init ip port t) cmd).out =
        [OutEv.sendErrMsg PyExc.attrNone] ∧
      (send_command scr (SocketConnection.init ip port t) cmd).post =
        SocketConnection.init ip port t ∧
      (query scr (SocketConnection.init ip port t) cmd).ret = none ∧
      (query scr (SocketConnection.init ip port t) cmd).wire = [] ∧
      (query scr (SocketConnection.init ip port t) cmd).out =
        [OutEv.queryErrMsg PyExc.attrNone] ∧
      (query scr (SocketConnection.init ip port t) cmd).post =
        SocketConnection.init ip port t := by
  intro ip port t scr cmd
  exact ⟨rfl, rfl, rfl, rfl, rfl, rfl, rfl⟩

/-- Claim C7 counterexample: after a `connect` that raised during the TCP
handshake (so it never succeeded), `self.socket` holds the freshly created
socket object; `disconnect` is then not a no-op — it closes that object,
prints the disconnected message, and changes the stored state. -/
theorem scpi_c7_counterexample :
    (disconnect ((connect freshConn (ConnOutcome.connFail PyExc.ioError)).post)).out =
      [OutEv.disconnMsg []] ∧
    (disconnect ((connect freshConn (ConnOutcome.connFail PyExc.ioError)).post)).post ≠
      (connect freshConn (ConnOutcome.connFail PyExc.ioError)).post := by
  exact ⟨rfl, by decide⟩

/-- Claim C7 amended: calling `disconnect` any number of times, from any
state, never fails and always leaves the channel holding no live transport
(the `Closed` state, trivially including the fresh `None` state), and a
second `disconnect` does not change the state further; on a never-connected
channel `disconnect` is a strict no-op.  After a `connect` that was
attempted and failed, however, `disconnect` is not a no-op: it closes the
created handle (and the socket variant prints a disconnect message); it
still never fails.  The same holds for `VISAConnection.disconnect`. -/
theorem scpi_c7_idempotent_disconnect_amended :
    (∀ c : SocketConnection, (disconnect c).ret = () ∧ ClosedPred ((disconnect c).post) ∧
      (disconnect ((disconnect c).post)).post = (disconnect c).post) ∧
    (∀ (ip : List Char) (port t : Nat),
      disconnect (SocketConnection.init ip port t) =
        ⟨(), [], [], SocketConnection.init ip port t⟩) ∧
    (∀ vc : VISAConnection, (visa_disconnect vc).ret = () ∧
      VisaClosedPred ((visa_disconnect vc).post) ∧
      (visa_disconnect ((visa_disconnect vc).post)).post = (visa_disconnect vc).post) := by
  refine ⟨fun c => ?_, fun ip port t => rfl, fun vc => ?_⟩
  · rcases c with ⟨ip, port, t, sock⟩
    rcases sock with _ | st
    · exact ⟨rfl, Or.inl rfl, rfl⟩
    · exact ⟨rfl, Or.inr rfl, rfl⟩
  · rcases vc with ⟨rs, t, inst, hrm⟩
    rcases inst with _ | i
    · exact ⟨rfl, Or.inl rfl, rfl⟩
    · exact ⟨rfl, Or.inr rfl, rfl⟩

/-- Claim C8: `connect` returns `True` exactly when it succeeded and
`False` on failure, printing the underlying error for inspection; after a
failed connect the channel is unusable exactly like a never-connected one
as far as the caller and the transport can see: `send_command` performs no
transport call, `query` returns `None` and performs no transport call.  The
same holds for `VISAConnection.connect` with a fresh connection whose
`open_resource` call failed. -/
theorem scpi_c8_connect_reports_failure :
    ∀ (c : SocketConnection) (e : PyExc) (scr : Script) (cmd : List Char)
      (rs : List Char) (t : Nat) (vs : VisaScript),
      (connect c ConnOutcome.success).ret = true ∧
      (connect c (ConnOutcome.connFail e)).ret = false ∧
      (connect c (ConnOutcome.sockFail e)).ret = false ∧
      (connect c (ConnOutcome.connFail e)).out = [OutEv.connErrMsg e] ∧
      (connect c (ConnOutcome.sockFail e)).post = c ∧
      (send_command scr ((connect c (ConnOutcome.connFail e)).post) cmd).wire = [] ∧
      (send_command scr ((connect c (ConnOutcome.connFail e)).post) cmd).ret = () ∧
      (query scr ((connect c (ConnOutcome.connFail e)).post) cmd).ret = none ∧
      (query scr ((connect c (ConnOutcome.connFail e)).post) cmd).wire = [] ∧
      (visa_connect (VISAConnection.init rs t) VConnOutcome.success).ret = true ∧
      (visa_connect (VISAConnection.init rs t) (VConnOutcome.openFail e)).ret = false ∧
      (visa_connect (VISAConnection.init rs t) (VConnOutcome.openFail e)).out =
        [VOutEv.connErrMsg e] ∧
      (visa_query vs ((visa_connect (VISAConnection.init rs t)
        (VConnOutcome.openFail e)).post) cmd).ret = none := by
  intro c e scr cmd rs t vs
  exact ⟨rfl, rfl, rfl, rfl, rfl, rfl, rfl, rfl, rfl, rfl, rfl, rfl, rfl⟩

/-- Claim C1 counterexample: the command `A\n\n` already ends with `\n`, so
`send_command` transmits it unchanged — a byte sequence ending in two
terminators, not exactly one.  The channel only ever checks the final
character, so inputs carrying extra newlines are transmitted with them. -/
theorem scpi_c1_counterexample :
    (send_command scrOk connAt0 ['A', '\n', '\n']).wire =
      [WireEv.writeEv ['A', '\n', '\n']] ∧
    countNl ['A', '\n', '\n'] ≠ 1 := by
  exact ⟨rfl, by decide⟩

/-- Claim C1 amended: for every input command whose body contains no
newline — with or without a single trailing `\n` — both `send_command` and
`query` transmit exactly `pyTerminate command`, a byte sequence containing
exactly one `\n`, which is its final byte; the channel appends exactly one
terminator when the command lacks one and never appends when one is already
present (so it never produces two by itself), but it does not remove extra
newlines already embedded in the input. -/
theorem scpi_c1_terminator_amended
    (command : List Char)
    (hsingle : countNl command = 0 ∨ ∃ b, command = b ++ ['\n'] ∧ countNl b = 0)
    (scr : Script) (c : SocketConnection) (s r : Nat)
    (hs : c.sock = some (SockSt.conn s r)) (hok : scr.sendO s = SendR.ok) :
    (send_command scr c command).wire = [WireEv.writeEv (pyTerminate command)] ∧
    (∃ rest, (query scr c command).wire = WireEv.writeEv (pyTerminate command) :: rest) ∧
    countNl (pyTerminate command) = 1 ∧
    endsWithNl (pyTerminate command) = true ∧
    (∀ cmd2 : List Char, endsWithNl cmd2 = true → pyTerminate cmd2 = cmd2) ∧
    (∀ cmd2 : List Char, endsWithNl cmd2 = false → pyTerminate cmd2 = cmd2 ++ ['\n']) := by
  obtain ⟨hcount, hend⟩ := countNl_pyTerminate_single command hsingle
  refine ⟨?_, ?_, hcount, hend, ?_, ?_⟩
  · simp [send_command, hs, hok]
  · rcases hr : scr.recvO r with p | _ | e <;>
      exact ⟨[WireEv.readEv BUFSIZE], by simp [query, hs, hok, hr]⟩
  · intro cmd2 h2; simp [pyTerminate, h2]
  · intro cmd2 h2; simp [pyTerminate, h2]

/-- Claim C1 witness: instantiating the amended claim at the newline-free
command `VOLT:AC 100`. -/
theorem scpi_c1_terminator_witness :
    countNl ['V', 'O', 'L', 'T', ' ', '1'] = 0 ∧
    connAt0.sock = some (SockSt.conn 0 0) ∧ scrOk.sendO 0 = SendR.ok ∧
    (send_command scrOk connAt0 ['V', 'O', 'L', 'T', ' ', '1']).wire =
      [WireEv.writeEv (pyTerminate ['V', 'O', 'L', 'T', ' ', '1'])] ∧
    countNl (pyTerminate ['V', 'O', 'L', 'T', ' ', '1']) = 1 :=
  ⟨by decide, rfl, rfl,
    (scpi_c1_terminator_amended ['V', 'O', 'L', 'T', ' ', '1'] (Or.inl (by decide))
      scrOk connAt0 0 0 rfl rfl).1,
    (scpi_c1_terminator_amended ['V', 'O', 'L', 'T', ' ', '1'] (Or.inl (by decide))
      scrOk connAt0 0 0 rfl rfl).2.2.1⟩

/-- Claim C3 counterexample: the channel absorbs failures with no
distinguishable return value.  A `send_command` whose transport write
raises returns exactly the same value (`None`) as a successful one; a
`query` that fails because the write raised, because the read timed out,
or because the channel was never connected returns the same `None` in all
three cases — the cause is not distinguishable from the result. -/
theorem scpi_c3_counterexample :
    (send_command scrSendFail connAt0 ['A']).ret = (send_command scrOk connAt0 ['A']).ret ∧
    (query scrSendFail connAt0 ['A', '?']).ret = (query scrTimeout connAt0 ['A', '?']).ret ∧
    (query scrSendFail connAt0 ['A', '?']).ret = (query scrOk freshConn ['A', '?']).ret ∧
    (query scrSendFail connAt0 ['A', '?']).ret = none := by
  exact ⟨rfl, rfl, rfl, rfl⟩

/-- Claim C3 amended: the channel never retries — every `send_command`
performs at most one transport write and every `query` at most one write
and one read, whatever the transport does — but failures are swallowed
rather than returned as typed results: `send_command` always returns
`None` (also under `VISAConnection`), a failed `query` returns the bare
`None`, and the failure cause is reported only in the printed diagnostic
line, which does carry the exception. -/
theorem scpi_c3_no_retry_swallowed_amended :
    ∀ (scr : Script) (c : SocketConnection) (command : List Char),
      (send_command scr c command).ret = () ∧
      countWrites ((send_command scr c command).wire) ≤ 1 ∧
      countWrites ((query scr c command).wire) ≤ 1 ∧
      countReads ((query scr c command).wire) ≤ 1 ∧
      (∀ (e : PyExc) (s r : Nat), c.sock = some (SockSt.conn s r) →
        scr.sendO s = SendR.fail e →
        (query scr c command).ret = none ∧
        (query scr c command).out = [OutEv.queryErrMsg e]) ∧
      (∀ (vs : VisaScript) (vc : VISAConnection), (visa_send vs vc command).ret = ()) := by
  intro scr c command
  rcases c with ⟨ip, port, t, sock⟩
  refine ⟨rfl, ?_, ?_, ?_, ?_, fun vs vc => rfl⟩
  · rcases sock with _ | st
    · simp [send_command, countWrites]
    · rcases st with _ | ⟨s, r⟩ | _
      · simp [send_command, countWrites]
      · rcases hso : scr.sendO s with _ | e <;> simp [send_command, hso, countWrites]
      · simp [send_command, countWrites]
  · rcases sock with _ | st
    · simp [query, countWrites]
    · rcases st with _ | ⟨s, r⟩ | _
      · simp [query, countWrites]
      · rcases hso : scr.sendO s with _ | e
        · rcases hro : scr.recvO r with p | _ | e2 <;>
            simp [query, hso, hro, countWrites]
        · simp [query, hso, countWrites]
      · simp [query, countWrites]
  · rcases sock with _ | st
    · simp [query, countReads]
    · rcases st with _ | ⟨s, r⟩ | _
      · simp [query, countReads]
      · rcases hso : scr.sendO s with _ | e
        · rcases hro : scr.recvO r with p | _ | e2 <;>
            simp [query, hso, hro, countReads]
        · simp [query, hso, countReads]
      · simp [query, countReads]
  · intro e s r hs hso
    simp only [SocketConnection.mk.injEq] at hs
    simp [query, hs, hso]

/-- Claim C3 amended witness: instantiating at a connected channel whose
transport rejects the write. -/
theorem scpi_c3_no_retry_swallowed_witness :
    connAt0.sock = some (SockSt.conn 0 0) ∧
    scrSendFail.sendO 0 = SendR.fail PyExc.ioError ∧
    (query scrSendFail connAt0 ['A', '?']).ret = none ∧
    (query scrSendFail connAt0 ['A', '?']).out = [OutEv.queryErrMsg PyExc.ioError] :=
  ⟨rfl, rfl,
    ((scpi_c3_no_retry_swallowed_amended scrSendFail connAt0 ['A', '?']).2.2.2.2.1
      PyExc.ioError 0 0 rfl rfl).1,
    ((scpi_c3_no_retry_swallowed_amended scrSendFail connAt0 ['A', '?']).2.2.2.2.1
      PyExc.ioError 0 0 rfl rfl).2⟩

/-- Claim C4 counterexample: a read that times out, a read that raises a
generic I/O error, and a response that fails to decode all make `query`
fail with the identical caller-visible result `None` — the timeout is not
surfaced as a distinct `ReadTimeout` error. -/
theorem scpi_c4_counterexample :
    (query scrTimeout connAt0 ['A', '?']).ret = none ∧
    (query scrTimeout connAt0 ['A', '?']).ret = (query scrReadFail connAt0 ['A', '?']).ret ∧
    (query scrTimeout connAt0 ['A', '?']).ret = (query scrGarbled connAt0 ['A', '?']).ret := by
  exact ⟨rfl, rfl, rfl⟩

/-- Claim C4 amended: when the transport read blocks past the configured
timeout, `query` fails by returning `None` — the same caller-visible value
as for a generic I/O error or a decode failure; the cause is distinguished
only in the printed diagnostic line, which carries the `socket.timeout`
exception (an event distinct from the generic-I/O and decode diagnostics). -/
theorem scpi_c4_timeout_amended
    (command : List Char) (scr : Script) (c : SocketConnection) (s r : Nat)
    (hs : c.sock = some (SockSt.conn s r)) (hw : scr.sendO s = SendR.ok)
    (hr : scr.recvO r = RecvR.fail PyExc.timeoutExc) :
    (query scr c command).ret = none ∧
    (query scr c command).out =
      [OutEv.queryMsg (pyStrip (pyTerminate command)),
       OutEv.queryErrMsg PyExc.timeoutExc] ∧
    OutEv.queryErrMsg PyExc.timeoutExc ≠ OutEv.queryErrMsg PyExc.ioError ∧
    OutEv.queryErrMsg PyExc.timeoutExc ≠ OutEv.queryErrMsg PyExc.decodeError := by
  refine ⟨?_, ?_, by decide, by decide⟩ <;> simp [query, hs, hw, hr]

/-- Claim C4 amended witness: instantiating at a connected channel whose
read times out. -/
theorem scpi_c4_timeout_witness :
    connAt0.sock = some (SockSt.conn 0 0) ∧
    scrTimeout.sendO 0 = SendR.ok ∧
    scrTimeout.recvO 0 = RecvR.fail PyExc.timeoutExc ∧
    (query scrTimeout connAt0 ['B', '?']).ret = none :=
  ⟨rfl, rfl, rfl,
    (scpi_c4_timeout_amended ['B', '?'] scrTimeout connAt0 0 0 rfl rfl rfl).1⟩

/-- Claim C5: for every transport whose read delivers a payload of the
form `<value>\n` (within the receive bound), `query` returns `<value>`
with the trailing terminator and all surrounding whitespace stripped —
`pyStrip v`, Python's `.strip()` of the value.  The same holds for
`VISAConnection.query` when the instrument answers `<value>\n`. -/
theorem scpi_c5_query_strips_terminator
    (v command : List Char) (scr : Script) (c : SocketConnection) (s r : Nat)
    (hs : c.sock = some (SockSt.conn s r))
    (hw : scr.sendO s = SendR.ok)
    (hr : scr.recvO r = RecvR.data (v ++ ['\n']))
    (hlen : v.length + 1 ≤ BUFSIZE) :
    (query scr c command).ret = some (pyStrip v) ∧
    (∀ (vs : VisaScript) (vc : VISAConnection) (w q : Nat),
      vc.instrument = some (InstSt.live w q) → vs.queryO q = VisaQR.ok (v ++ ['\n']) →
      (visa_query vs vc command).ret = some (pyStrip v)) := by
  constructor
  · have htake : (v ++ ['\n']).take BUFSIZE = v ++ ['\n'] :=
      List.take_of_length_le (by simpa using hlen)
    simp [query, hs, hw, hr, htake, pyStrip_append_nl]
  · intro vs vc w q hinst hq
    simp [visa_query, hinst, hq, pyStrip_append_nl]

/-- Claim C5 witness: a transport echoing `1\n` makes `query` (and the
VISA variant) return `1`. -/
theorem scpi_c5_query_strips_witness :
    connAt0.sock = some (SockSt.conn 0 0) ∧
    scrOk.sendO 0 = SendR.ok ∧
    scrOk.recvO 0 = RecvR.data (['1'] ++ ['\n']) ∧
    (['1'] : List Char).length + 1 ≤ BUFSIZE ∧
    (query scrOk connAt0 ['O', 'P', 'C', '?']).ret = some (pyStrip ['1']) ∧
    (visa_query vscrEcho visaAt0 ['O', 'P', 'C', '?']).ret = some (pyStrip ['1']) :=
  ⟨rfl, rfl, rfl, by decide,
    (scpi_c5_query_strips_terminator ['1'] ['O', 'P', 'C', '?'] scrOk connAt0 0 0
      rfl rfl rfl (by decide)).1,
    (scpi_c5_query_strips_terminator ['1'] ['O', 'P', 'C', '?'] scrOk connAt0 0 0
      rfl rfl rfl (by decide)).2 vscrEcho visaAt0 0 0 rfl rfl⟩

/-- Claim C6 counterexample: a `query` on a never-connected channel
performs no transport call at all (not one write and one read), and a
`query` whose transport rejects the write performs the write call but no
read — so it is not true that every call to `query` performs exactly one
write followed by exactly one read. -/
theorem scpi_c6_counterexample :
    (query scrOk freshConn ['A', '?']).wire = [] ∧
    (query scrSendFail connAt0 ['A', '?']).wire = [WireEv.writeEv ['A', '?', '\n']] := by
  exact ⟨rfl, rfl⟩

/-- Claim C6 amended: a `query` on a connected channel whose write
succeeds and whose read delivers data performs exactly one transport
write followed by exactly one bounded read; two such sequential queries
are observed by the transport as write, read, write, read in that order,
never interleaved; and no `query` — whatever the state or transport —
ever performs more than one write or more than one read.  (A query on a
never-connected channel performs no transport call, and a query whose
write raises performs no read.) -/
theorem scpi_c6_ordering_amended
    (scr : Script) (c : SocketConnection) (s r : Nat) (a b p1 p2 : List Char)
    (hs : c.sock = some (SockSt.conn s r))
    (ha : scr.sendO s = SendR.ok) (h1 : scr.recvO r = RecvR.data p1)
    (hb : scr.sendO (s + 1) = SendR.ok) (h2 : scr.recvO (r + 1) = RecvR.data p2) :
    (query scr c a).wire = [WireEv.writeEv (pyTerminate a), WireEv.readEv BUFSIZE] ∧
    (query scr ((query scr c a).post) b).wire =
      [WireEv.writeEv (pyTerminate b), WireEv.readEv BUFSIZE] ∧
    (query scr c a).wire ++ (query scr ((query scr c a).post) b).wire =
      [WireEv.writeEv (pyTerminate a), WireEv.readEv BUFSIZE,
       WireEv.writeEv (pyTerminate b), WireEv.readEv BUFSIZE] ∧
    (∀ (scr2 : Script) (c2 : SocketConnection) (cmd2 : List Char),
      countWrites ((query scr2 c2 cmd2).wire) ≤ 1 ∧
      countReads ((query scr2 c2 cmd2).wire) ≤ 1) := by
  have hpostEq : (query scr c a).post = {c with sock := some (SockSt.conn (s + 1) (r + 1))} := by
    simp [query, hs, ha, h1]
  have hw1 : (query scr c a).wire =
      [WireEv.writeEv (pyTerminate a), WireEv.readEv BUFSIZE] := by
    simp [query, hs, ha, h1]
  have hw2 : (query scr ((query scr c a).post) b).wire =
      [WireEv.writeEv (pyTerminate b), WireEv.readEv BUFSIZE] := by
    rw [hpostEq]
    simp [query, hb, h2]
  refine ⟨hw1, hw2, by rw [hw1, hw2]; rfl, ?_⟩
  intro scr2 c2 cmd2
  rcases c2 with ⟨ip, port, t, sock⟩
  rcases sock with _ | st
  · simp [query, countWrites, countReads]
  · rcases st with _ | ⟨s2, r2⟩ | _
    · simp [query, countWrites, countReads]
    · rcases hso : scr2.sendO s2 with _ | e
      · rcases hro : scr2.recvO r2 with p | _ | e2 <;>
          simp [query, hso, hro, countWrites, countReads]
      · simp [query, hso, countWrites, countReads]
    · simp [query, countWrites, countReads]

/-- Claim C6 amended witness: two sequential queries against the echo
transport are observed as write, read, write, read. -/
theorem scpi_c6_ordering_witness :
    connAt0.sock = some (SockSt.conn 0 0) ∧
    scrOk.sendO 0 = SendR.ok ∧ scrOk.recvO 0 = RecvR.data ['1', '\n'] ∧
    scrOk.sendO 1 = SendR.ok ∧ scrOk.recvO 1 = RecvR.data ['1', '\n'] ∧
    (query scrOk connAt0 ['A', '?']).wire ++
      (query scrOk ((query scrOk connAt0 ['A', '?']).post) ['B', '?']).wire =
      [WireEv.writeEv (pyTerminate ['A', '?']), WireEv.readEv BUFSIZE,
       WireEv.writeEv (pyTerminate ['B', '?']), WireEv.readEv BUFSIZE] :=
  ⟨rfl, rfl, rfl, rfl, rfl,
    (scpi_c6_ordering_amended scrOk connAt0 0 0 ['A', '?'] ['B', '?'] ['1', '\n']
      ['1', '\n'] rfl rfl rfl rfl rfl).2.2.1⟩

/-- Claim C9: the response buffer of `query` is bounded by the fixed
`recv` argument 65535; when the pending response is longer than that
bound, `query` returns (after stripping) only the first 65535 bytes,
obtained from the single read it performs — and no `query` under any
transport behaviour ever issues a second read to reassemble more. -/
theorem scpi_c9_bounded_buffer
    (payload command : List Char) (scr : Script) (c : SocketConnection) (s r : Nat)
    (hs : c.sock = some (SockSt.conn s r)) (hw : scr.sendO s = SendR.ok)
    (hr : scr.recvO r = RecvR.data payload) (hlong : BUFSIZE < payload.length) :
    (query scr c command).ret = some (pyStrip (payload.take BUFSIZE)) ∧
    (payload.take BUFSIZE).length = BUFSIZE ∧
    countReads ((query scr c command).wire) = 1 ∧
    (∀ (scr2 : Script) (c2 : SocketConnection) (cmd2 : List Char),
      countReads ((query scr2 c2 cmd2).wire) ≤ 1) := by
  refine ⟨by simp [query, hs, hw, hr], by rw [List.length_take]; omega,
    by simp [query, hs, hw, hr, countReads], ?_⟩
  intro scr2 c2 cmd2
  rcases c2 with ⟨ip, port, t, sock⟩
  rcases sock with _ | st
  · simp [query, countReads]
  · rcases st with _ | ⟨s2, r2⟩ | _
    · simp [query, countReads]
    · rcases hso : scr2.sendO s2 with _ | e
      · rcases hro : scr2.recvO r2 with p | _ | e2 <;>
          simp [query, hso, hro, countReads]
      · simp [query, hso, countReads]
    · simp [query, countReads]

/-- Claim C9 witness: a pending response of 65536 bytes is truncated to
its first 65535 bytes by the single read. -/
theorem scpi_c9_bounded_buffer_witness :
    BUFSIZE < (List.replicate (BUFSIZE + 1) 'a').length ∧
    (query scrLong connAt0 ['M', '?']).ret =
      some (pyStrip ((List.replicate (BUFSIZE + 1) 'a').take BUFSIZE)) ∧
    ((List.replicate (BUFSIZE + 1) 'a').take BUFSIZE).length = BUFSIZE ∧
    countReads ((query scrLong connAt0 ['M', '?']).wire) = 1 :=
  ⟨by simp,
    (scpi_c9_bounded_buffer (List.replicate (BUFSIZE + 1) 'a') ['M', '?'] scrLong
      connAt0 0 0 rfl rfl rfl (by simp)).1,
    (scpi_c9_bounded_buffer (List.replicate (BUFSIZE + 1) 'a') ['M', '?'] scrLong
      connAt0 0 0 rfl rfl rfl (by simp)).2.1,
    (scpi_c9_bounded_buffer (List.replicate (BUFSIZE + 1) 'a') ['M', '?'] scrLong
      connAt0 0 0 rfl rfl rfl (by simp)).2.2.1⟩

/-- Claim C10: for every connection state and transport behaviour —
including every modelled exception the transport can raise — the
`except Exception` blocks make `send_command` return `None` and `query`
return either a decoded response string or `None`; moreover `query`
returns a string exactly when the channel is connected, the write
succeeds and the read delivers decodable bytes, and the string is the
stripped bounded read.  The VISA variant behaves the same way. -/
theorem scpi_c10_never_propagates :
    ∀ (scr : Script) (c : SocketConnection) (command : List Char),
      (send_command scr c command).ret = () ∧
      ((query scr c command).ret = none ∨
        ∃ resp, (query scr c command).ret = some resp) ∧
      (∀ resp, (query scr c command).ret = some resp ↔
        ∃ s r payload, c.sock = some (SockSt.conn s r) ∧ scr.sendO s = SendR.ok ∧
          scr.recvO r = RecvR.data payload ∧ resp = pyStrip (payload.take BUFSIZE)) ∧
      (∀ (vs : VisaScript) (vc : VISAConnection),
        (visa_send vs vc command).ret = () ∧
        ((visa_query vs vc command).ret = none ∨
          ∃ resp, (visa_query vs vc command).ret = some resp)) := by
  intro scr c command
  rcases c with ⟨ip, port, t, sock⟩
  refine ⟨rfl, ?_, ?_, ?_⟩
  · rcases sock with _ | st
    · simp [query]
    · rcases st with _ | ⟨s, r⟩ | _
      · simp [query]
      · rcases hso : scr.sendO s with _ | e
        · rcases hro : scr.recvO r with p | _ | e2 <;> simp [query, hso, hro]
        · simp [query, hso]
      · simp [query]
  · intro resp
    rcases sock with _ | st
    · simp [query]
    · rcases st with _ | ⟨s, r⟩ | _
      · simp [query]
      · rcases hso : scr.sendO s with _ | e
        · rcases hro : scr.recvO r with p | _ | e2
          · have hq : (query scr ⟨ip, port, t, some (SockSt.conn s r)⟩ command).ret =
                some (pyStrip (p.take BUFSIZE)) := by simp [query, hso, hro]
            rw [hq]
            constructor
            · intro h
              exact ⟨s, r, p, rfl, hso, hro, (Option.some.inj h).symm⟩
            · rintro ⟨s2, r2, p2, hsr, hso2, hro2, hresp⟩
              injection hsr with h1
              injection h1 with hs2 hr2
              subst hs2
              subst hr2
              rw [hro] at hro2
              injection hro2 with hp
              subst hp
              rw [hresp]
          · simp [query, hso, hro]
          · simp [query, hso, hro]
        · simp [query, hso]
      · simp [query]
  · intro vs vc
    rcases vc with ⟨rs, t2, inst, hrm⟩
    refine ⟨?_, ?_⟩
    · rcases inst with _ | i
      · rfl
      · rcases i with ⟨w, q⟩ | _
        · rcases hwo : vs.writeO w with _ | e <;> simp [visa_send, hwo]
        · rfl
    · rcases inst with _ | i
      · simp [visa_query]
      · rcases i with ⟨w, q⟩ | _
        · rcases hqo : vs.queryO q with p | e <;> simp [visa_query, hqo]
        · simp [visa_query]

/-- Claim C10 witness: the totality statement instantiated at the echo
transport. -/
theorem scpi_c10_never_propagates_witness :
    (send_command scrOk connAt0 ['A']).ret = () ∧
    ((query scrOk connAt0 ['A', '?']).ret = none ∨
      ∃ resp, (query scrOk connAt0 ['A', '?']).ret = some resp) :=
  ⟨(scpi_c10_never_propagates scrOk connAt0 ['A']).1,
    (scpi_c10_never_propagates scrOk connAt0 ['A', '?']).2.1⟩

end SCPI
